import Mathlib

/-!
Verification of the toy document retriever in `parallel_chains.py`.

The script defines a `ToyRetriever` holding a list of `Document`s and a
bound `k`; its `_get_relevant_documents` method sleeps, then scans the
document list in order, returning early once the collected count exceeds
`k`, and otherwise appending every document whose lowercased body contains
the lowercased query.  The driver builds five sample documents and runs the
retrieval through single, sequential and parallel invocation patterns.

This file embeds the pure value-level behaviour of that code and proves
the specification's claims about it.
-/

set_option maxRecDepth 8000

namespace ParallelChains

/-- Embeds `langchain_core.documents.Document` as used by the script: a text
body `page_content` plus a string-keyed `metadata` mapping. -/
structure Document where
  page_content : String
  metadata : List (String × String)
deriving DecidableEq

/-- Lowercased character list of a string; embeds Python `str.lower()`
(ASCII case folding, which covers every string in the script). -/
def lowerChars (s : String) : List Char :=
  s.data.map Char.toLower

/-- Embeds Python substring membership `needle in haystack` on character
lists: the needle occurs at some position of the haystack (the empty needle
occurs in every string). -/
def strContains : List Char → List Char → Bool
  | needle, [] => needle.isEmpty
  | needle, c :: rest => needle.isPrefixOf (c :: rest) || strContains needle rest

/-- The match test `query.lower() in document.page_content.lower()` from
`_get_relevant_documents`. -/
def containsCI (query body : String) : Bool :=
  strContains (lowerChars query) (lowerChars body)

/-- Embeds the `ToyRetriever` state: the `documents` field and the bound
`k` (a Python `int`, hence `Int`). -/
structure ToyRetriever where
  documents : List Document
  k : Int
deriving DecidableEq

/-- The `for document in self.documents` loop of `_get_relevant_documents`:
`matching_documents` is the accumulator; the loop returns it early once its
length exceeds `k`, and otherwise appends each matching document. -/
def retrieveLoop (k : Int) (query : String) :
    List Document → List Document → List Document
  | matching_documents, [] => matching_documents
  | matching_documents, document :: rest =>
    if (matching_documents.length : Int) > k then matching_documents
    else if containsCI query document.page_content then
      retrieveLoop k query (matching_documents ++ [document]) rest
    else
      retrieveLoop k query matching_documents rest

/-- `ToyRetriever._get_relevant_documents` (the `time.sleep(3)` and the log
lines have no effect on the returned value and are omitted from the value
embedding; timing is treated separately). -/
def ToyRetriever.get_relevant_documents (r : ToyRetriever) (query : String) :
    List Document :=
  retrieveLoop r.k query [] r.documents

/-- The same loop with the retriever state threaded explicitly, making the
absence of any assignment to `self` in the method body a provable fact:
every branch passes `r` through unchanged, exactly as the source only ever
reads `self.documents` and `self.k`. -/
def retrieveLoopSt (query : String) :
    ToyRetriever → List Document → List Document → List Document × ToyRetriever
  | r, matching_documents, [] => (matching_documents, r)
  | r, matching_documents, document :: rest =>
    if (matching_documents.length : Int) > r.k then (matching_documents, r)
    else if containsCI query document.page_content then
      retrieveLoopSt query r (matching_documents ++ [document]) rest
    else
      retrieveLoopSt query r matching_documents rest

/-- State-passing form of `_get_relevant_documents`: returns the result
together with the retriever state after the call. -/
def ToyRetriever.get_relevant_documents_st (r : ToyRetriever) (query : String) :
    List Document × ToyRetriever :=
  retrieveLoopSt query r [] r.documents

/-! The five hard-coded sample documents of the driver (`documents` in
`__main__`). -/

/-- Sample document 0. -/
def doc_dogs : Document :=
  ⟨"Dogs are great companions, known for their loyalty and friendliness.",
   [("type", "dog"), ("trait", "loyalty")]⟩

/-- Sample document 1. -/
def doc_cats : Document :=
  ⟨"Cats are independent pets that often enjoy their own space.",
   [("type", "cat"), ("trait", "independence")]⟩

/-- Sample document 2. -/
def doc_goldfish : Document :=
  ⟨"Goldfish are popular pets for beginners, requiring relatively simple care.",
   [("type", "fish"), ("trait", "low maintenance")]⟩

/-- Sample document 3. -/
def doc_parrots : Document :=
  ⟨"Parrots are intelligent birds capable of mimicking human speech.",
   [("type", "bird"), ("trait", "intelligence")]⟩

/-- Sample document 4. -/
def doc_rabbits : Document :=
  ⟨"Rabbits are social animals that need plenty of space to hop around.",
   [("type", "rabbit"), ("trait", "social")]⟩

/-- The hard-coded `documents` list of the driver. -/
def documents : List Document :=
  [doc_dogs, doc_cats, doc_goldfish, doc_parrots, doc_rabbits]

/-- `retriever = ToyRetriever(documents=documents, k=3)` from the driver. -/
def retriever : ToyRetriever := ⟨documents, 3⟩

/-- `chain = RunnablePassthrough() | retriever`: the passthrough forwards
the input string unchanged, so invoking the chain is invoking the
retriever. -/
def chain_invoke (q : String) : List Document :=
  retriever.get_relevant_documents q

/-- The single-invocation path: `chain.invoke("that")`. -/
def single_result : List Document :=
  chain_invoke "that"

/-- The sequential path: `for i in range(5): chain.invoke("that")`, as the
list of the five results in order. -/
def sequential_results : List (List Document) :=
  (List.range 5).map fun _ => chain_invoke "that"

/-! Helper lemmas about the loop. -/

/-- Once the accumulator already holds more than `k` documents, the loop
returns it unchanged at once. -/
theorem retrieveLoop_of_full (k : Int) (q : String) (ds acc : List Document)
    (h : k < (acc.length : Int)) : retrieveLoop k q acc ds = acc := by
  cases ds with
  | nil => rfl
  | cons d rest => simp [retrieveLoop, h]

/-- Main characterisation of the loop: starting from an accumulator of at
most `k` documents, the loop appends the matching documents of the
remaining input, truncated so the total never passes `k + 1`. -/
theorem retrieveLoop_take (q : String) (k : Int) (hk : 0 ≤ k) :
    ∀ (ds acc : List Document), (acc.length : Int) ≤ k →
      retrieveLoop k q acc ds =
        acc ++ (ds.filter fun d => containsCI q d.page_content).take
          (k.toNat + 1 - acc.length)
  | [], acc, _ => by simp [retrieveLoop]
  | d :: rest, acc, hacc => by
    have hnot : ¬ ((acc.length : Int) > k) := by omega
    have hlk : acc.length ≤ k.toNat := by omega
    by_cases hp : containsCI q d.page_content = true
    · by_cases hfit : ((acc ++ [d]).length : Int) ≤ k
      · have ih := retrieveLoop_take q k hk rest (acc ++ [d]) hfit
        have hfit' : acc.length + 1 ≤ k.toNat := by
          simp only [List.length_append, List.length_singleton] at hfit
          omega
        have harith : k.toNat + 1 - acc.length = (k.toNat + 1 - (acc.length + 1)) + 1 := by
          omega
        simp only [retrieveLoop, if_neg hnot, if_pos hp, ih, List.length_append,
          List.length_singleton, List.filter_cons, hp, if_true, harith,
          List.take_succ_cons, List.append_assoc, List.singleton_append]
      · have hfull : k < ((acc ++ [d]).length : Int) := by omega
        have hstop := retrieveLoop_of_full k q rest (acc ++ [d]) hfull
        have heq : acc.length = k.toNat := by
          simp only [List.length_append, List.length_singleton] at hfull
          omega
        have harith : k.toNat + 1 - acc.length = 1 := by omega
        simp only [retrieveLoop, if_neg hnot, if_pos hp, hstop, List.filter_cons,
          hp, if_true, harith, List.take_succ_cons, List.take_zero,
          List.append_assoc, List.singleton_append]
    · have ih := retrieveLoop_take q k hk rest acc hacc
      simp only [retrieveLoop, if_neg hnot, if_neg hp, ih, List.filter_cons, hp,
        if_false, Bool.false_eq_true]

/-- If no document of the input matches, the loop starting from the empty
accumulator returns the empty list. -/
theorem retrieveLoop_nil_of_no_match (k : Int) (q : String) :
    ∀ ds : List Document, (∀ d ∈ ds, containsCI q d.page_content = false) →
      retrieveLoop k q [] ds = []
  | [], _ => rfl
  | d :: rest, h => by
    have hd : containsCI q d.page_content = false := h d (by simp)
    have hrest := retrieveLoop_nil_of_no_match k q rest fun x hx => h x (by simp [hx])
    by_cases h0 : ((List.length ([] : List Document) : Int) > k)
    · simp only [retrieveLoop, if_pos h0]
    · simp only [retrieveLoop, if_neg h0, hd, Bool.false_eq_true, if_false,
        List.nil_append, hrest]

/-- The state-passing loop returns the retriever unchanged: no branch of the
method body writes to `self`. -/
theorem retrieveLoopSt_snd (q : String) :
    ∀ (ds acc : List Document) (r : ToyRetriever), (retrieveLoopSt q r acc ds).2 = r
  | [], _, _ => rfl
  | d :: rest, acc, r => by
    simp only [retrieveLoopSt]
    by_cases h1 : (acc.length : Int) > r.k
    · simp [h1]
    · by_cases h2 : containsCI q d.page_content = true
      · simp only [if_neg h1, if_pos h2, retrieveLoopSt_snd q rest (acc ++ [d]) r]
      · simp only [if_neg h1, if_neg h2, retrieveLoopSt_snd q rest acc r]

/-- The state-passing loop computes the same result list as the plain one. -/
theorem retrieveLoopSt_fst (q : String) :
    ∀ (ds acc : List Document) (r : ToyRetriever),
      (retrieveLoopSt q r acc ds).1 = retrieveLoop r.k q acc ds
  | [], _, _ => rfl
  | d :: rest, acc, r => by
    simp only [retrieveLoopSt, retrieveLoop]
    by_cases h1 : (acc.length : Int) > r.k
    · simp [h1]
    · by_cases h2 : containsCI q d.page_content = true
      · simp only [if_neg h1, if_pos h2, retrieveLoopSt_fst q rest (acc ++ [d]) r]
      · simp only [if_neg h1, if_neg h2, retrieveLoopSt_fst q rest acc r]

/-- The empty needle occurs in every haystack, as with Python `"" in s`. -/
theorem strContains_nil_left : ∀ l : List Char, strContains [] l = true
  | [] => rfl
  | _ :: _ => rfl

/-- The empty query matches every document body. -/
theorem containsCI_empty_query (body : String) : containsCI "" body = true :=
  strContains_nil_left (lowerChars body)

/-! The claims. -/

/-- Claim C1: for every query `q`, document list and bound `k ≥ 0`, the
retrieval returns exactly the documents whose body contains `q`
case-insensitively, in input order (a filter of the list, hence a
subsequence with no deduplication or reordering), truncated to the first
`min(m, k + 1)` matches — collection stops once the count exceeds `k`. -/
theorem get_relevant_documents_eq_filter_take (r : ToyRetriever) (q : String)
    (hk : 0 ≤ r.k) :
    r.get_relevant_documents q =
      (r.documents.filter fun d => containsCI q d.page_content).take (r.k.toNat + 1) := by
  have h := retrieveLoop_take q r.k hk r.documents [] (by simpa using hk)
  simpa using h

/-- Witness for claim C1 at the sample retriever and query "that". -/
theorem get_relevant_documents_eq_filter_take_witness :
    retriever.get_relevant_documents "that" =
      (retriever.documents.filter fun d => containsCI "that" d.page_content).take
        (retriever.k.toNat + 1) :=
  get_relevant_documents_eq_filter_take retriever "that" (by decide)

/-- Claim C2: for every query `q` and bound `k ≥ 0` the result count is at
most `k + 1`, and every returned record's body contains `q`
case-insensitively. -/
theorem get_relevant_documents_bound_and_match (r : ToyRetriever) (q : String)
    (hk : 0 ≤ r.k) :
    ((r.get_relevant_documents q).length : Int) ≤ r.k + 1 ∧
      ∀ d ∈ r.get_relevant_documents q, containsCI q d.page_content = true := by
  have heq : r.get_relevant_documents q =
      (r.documents.filter fun d => containsCI q d.page_content).take (r.k.toNat + 1) := by
    simpa using retrieveLoop_take q r.k hk r.documents [] (by simpa using hk)
  constructor
  · rw [heq]
    have hle := List.length_take_le (r.k.toNat + 1)
      (r.documents.filter fun d => containsCI q d.page_content)
    omega
  · intro d hd
    rw [heq] at hd
    exact (List.mem_filter.mp (List.take_subset _ _ hd)).2

/-- Witness for claim C2 at the sample retriever and query "that". -/
theorem get_relevant_documents_bound_and_match_witness :
    ((retriever.get_relevant_documents "that").length : Int) ≤ retriever.k + 1 ∧
      ∀ d ∈ retriever.get_relevant_documents "that",
        containsCI "that" d.page_content = true :=
  get_relevant_documents_bound_and_match retriever "that" (by decide)

/-- Claim C3 counterexample: with the five sample records and `k = 3`, the
retrieval at query "that" is NOT the empty sequence — the Cats and Rabbits
bodies both contain "that". -/
theorem sample_query_that_not_empty :
    retriever.get_relevant_documents "that" ≠ [] := by decide

/-- Claim C3 (amended): with the five sample records and `k = 3`, the
retrieval at query "that" returns exactly the Cats record and the Rabbits
record, in input order. -/
theorem sample_query_that_result :
    retriever.get_relevant_documents "that" = [doc_cats, doc_rabbits] := rfl

/-- Claim C4: with the five sample records and `k = 3`, the retrieval at
query "independent" returns exactly the Cats record and no others. -/
theorem sample_query_independent_result :
    retriever.get_relevant_documents "independent" = [doc_cats] := rfl

/-- Claim C5: the retrieval is a total function (the embedding returns a
value for every query and document list), and a query matching no record
body yields the empty result rather than an error. -/
theorem get_relevant_documents_no_match_empty (r : ToyRetriever) (q : String)
    (h : ∀ d ∈ r.documents, containsCI q d.page_content = false) :
    r.get_relevant_documents q = [] :=
  retrieveLoop_nil_of_no_match r.k q r.documents h

/-- Witness for claim C5 at the sample retriever and the absent query
"zebra". -/
theorem get_relevant_documents_no_match_empty_witness :
    retriever.get_relevant_documents "zebra" = [] :=
  get_relevant_documents_no_match_empty retriever "zebra" (by decide)

/-- Claim C6: retrieval never mutates the retriever: the state after any
invocation equals the state before it — in particular the document list and
the bound `k` (and with them every record's body and tag mapping) are
unchanged — and the returned result is the one the plain function computes. -/
theorem get_relevant_documents_st_frame (r : ToyRetriever) (q : String) :
    (r.get_relevant_documents_st q).2 = r ∧
      (r.get_relevant_documents_st q).2.documents = r.documents ∧
      (r.get_relevant_documents_st q).2.k = r.k ∧
      (r.get_relevant_documents_st q).1 = r.get_relevant_documents q := by
  have h2 := retrieveLoopSt_snd q r.documents [] r
  have h1 := retrieveLoopSt_fst q r.documents [] r
  exact ⟨h2, by rw [ToyRetriever.get_relevant_documents_st, h2],
    by rw [ToyRetriever.get_relevant_documents_st, h2], h1⟩

/-- Claim C7: the single-invocation path and the first iteration of the
sequential path, run on the identical input "that", produce identical
result lists — the retrieval is deterministic across two runs with equal
inputs. -/
theorem single_eq_first_sequential :
    sequential_results.head? = some single_result := rfl

/-- Claim C10: the empty query matches every record, so the retrieval
returns the first `min(n, k + 1)` documents of the list. -/
theorem empty_query_returns_take (r : ToyRetriever) (hk : 0 ≤ r.k) :
    r.get_relevant_documents "" = r.documents.take (r.k.toNat + 1) := by
  have h := retrieveLoop_take "" r.k hk r.documents [] (by simpa using hk)
  have hfilter : (r.documents.filter fun d => containsCI "" d.page_content) = r.documents :=
    List.filter_eq_self.mpr fun d _ => containsCI_empty_query d.page_content
  simpa [hfilter] using h

/-- Witness for claim C10 at the sample retriever: with the five sample
records and `k = 3` the empty query returns the first four documents. -/
theorem empty_query_returns_take_witness :
    0 ≤ retriever.k ∧
      retriever.get_relevant_documents "" = retriever.documents.take (retriever.k.toNat + 1) :=
  ⟨by decide, empty_query_returns_take retriever (by decide)⟩

end ParallelChains
